import Mathlib

/-!
Verification of the persistence layer `models.py` of the GetAJobUpdated
job-board application, via a shallow embedding.

The database state is a record of five tables.  Each table is a schema
part (the list of column names, `none` when the table does not exist)
together with a list of rows.  Rows are modelled as structures carrying
every column the accessors mention; nullable columns are `Option`s.
SQLite `INTEGER` columns are `Int`/`Nat`, `TEXT` is `String`, and the
`DATETIME`/ISO-string timestamps the code compares with
`datetime.fromisoformat`/`datetime.utcnow()` are modelled as integer
instants (`Int`), with a dedicated type for a token's stored
`expires_at`, which in the source may be NULL, a parsable timestamp or
an unparsable string.  `REAL` geocoordinates (`lat`/`lng`) are stored
and copied but never computed with in this layer, so they are modelled
as opaque `Int`s.

Accessors that the SQLite engine can reject (INSERTs hitting UNIQUE or
CHECK constraints, statements naming columns absent from the live
schema) return `Except SqlError`; the rest are pure state transformers.
-/

/-- Errors the storage engine raises: `operationalError` for a statement
naming a missing table/column, `integrityError` for UNIQUE violations,
`checkViolation` for CHECK constraint violations. -/
inductive SqlError where
  | operationalError
  | integrityError
  | checkViolation
  deriving DecidableEq, Repr

/-- A row of the `users` table.  Nullable columns are `Option`s;
`is_banned` and `verified` are SQLite INTEGER flags. -/
structure UserRow where
  id : Nat
  email : String
  password_hash : String
  role : String
  is_banned : Int
  banned_until : Option String
  created_at : Int
  username : Option String
  first_name : Option String
  last_name : Option String
  verified : Int
  deriving DecidableEq, Repr

/-- A row of the `jobs` table. -/
structure JobRow where
  id : Nat
  employer_id : Nat
  title : String
  description : String
  location_text : Option String
  lat : Option Int
  lng : Option Int
  salary : Option String
  tags : Option String
  created_at : Int
  deriving DecidableEq, Repr

/-- A row of the `applications` table (including the two columns
`init_db` patches in additively). -/
structure AppRow where
  id : Nat
  job_id : Nat
  user_id : Nat
  cover_letter : String
  resume_text : String
  cover_letter_path : Option String
  resume_path : Option String
  created_at : Int
  deriving DecidableEq, Repr

/-- A row of the `ratings` table. -/
structure RatingRow where
  id : Nat
  target_type : String
  target_id : Nat
  rater_id : Nat
  rating : Int
  comment : String
  created_at : Int
  deriving DecidableEq, Repr

/-- A token's stored `expires_at` column: NULL (falsy in the Python
`if expires_at:` guard), an unparsable string (`datetime.fromisoformat`
raises), or a parsable timestamp. -/
inductive StoredExpiry where
  | nullExpiry
  | unparsable
  | atTime (t : Int)
  deriving DecidableEq, Repr

/-- A row of the `tokens` table. -/
structure TokenRow where
  token : String
  email : String
  purpose : String
  expires_at : StoredExpiry
  created_at : Int
  deriving DecidableEq, Repr

/-- The whole database file: per-table column lists (`none` = the table
does not exist) and per-table row lists. -/
structure DB where
  usersCols : Option (List String)
  jobsCols : Option (List String)
  appsCols : Option (List String)
  ratingsCols : Option (List String)
  tokensCols : Option (List String)
  users : List UserRow
  jobs : List JobRow
  apps : List AppRow
  ratings : List RatingRow
  tokens : List TokenRow
  deriving DecidableEq, Repr

/-- A database file that does not exist yet: no tables, no rows. -/
def emptyDB : DB :=
  ⟨none, none, none, none, none, [], [], [], [], []⟩

/-! ### init_db -/

/-- Column list of the `users` table as created by `init_db`. -/
def usersCreateCols : List String :=
  ["id", "email", "password_hash", "role", "is_banned", "banned_until", "created_at"]

/-- Column list of the `jobs` table as created by `init_db`. -/
def jobsCreateCols : List String :=
  ["id", "employer_id", "title", "description", "location_text", "lat", "lng",
   "salary", "tags", "created_at"]

/-- Column list of the `applications` table as created by `init_db`
(before the additive patch). -/
def appsCreateCols : List String :=
  ["id", "job_id", "user_id", "cover_letter", "resume_text", "created_at"]

/-- Column list of the `ratings` table as created by `init_db`. -/
def ratingsCreateCols : List String :=
  ["id", "target_type", "target_id", "rater_id", "rating", "comment", "created_at"]

/-- Column list of the `tokens` table as created by `init_db`. -/
def tokensCreateCols : List String :=
  ["id", "token", "email", "purpose", "expires_at", "created_at"]

/-- `CREATE TABLE IF NOT EXISTS`: keeps an existing table (and its
columns) untouched, creates it with the canonical columns otherwise. -/
def ensureTable (existing : Option (List String)) (createCols : List String) :
    Option (List String) :=
  match existing with
  | some cols => some cols
  | none => some createCols

/-- `_add_column_if_missing`: appends the column only when its name is
not already in the live column list. -/
def addColumnIfMissing (cols : List String) (col : String) : List String :=
  if cols.contains col then cols else cols ++ [col]

/-- `init_db`: creates each of the five tables if missing, then
additively patches `applications` with `cover_letter_path` and
`resume_path`.  Row data is never touched (the patch's added columns
default to NULL, which the row model already carries as `none`). -/
def init_db (db : DB) : DB :=
  let uc := ensureTable db.usersCols usersCreateCols
  let jc := ensureTable db.jobsCols jobsCreateCols
  let ac := ensureTable db.appsCols appsCreateCols
  let rc := ensureTable db.ratingsCols ratingsCreateCols
  let tc := ensureTable db.tokensCols tokensCreateCols
  let ac' := ac.map (fun cols =>
    addColumnIfMissing (addColumnIfMissing cols "cover_letter_path") "resume_path")
  { db with usersCols := uc, jobsCols := jc, appsCols := ac', ratingsCols := rc,
            tokensCols := tc }

/-! ### get_jobs -/

/-- Insert a job into a list already sorted by `created_at` descending,
keeping it sorted (stable). -/
def insertByCreatedDesc (j : JobRow) : List JobRow → List JobRow
  | [] => [j]
  | x :: xs => if j.created_at ≤ x.created_at then x :: insertByCreatedDesc j xs
               else j :: x :: xs

/-- `ORDER BY created_at DESC` over the jobs table. -/
def orderByCreatedDesc : List JobRow → List JobRow
  | [] => []
  | x :: xs => insertByCreatedDesc x (orderByCreatedDesc xs)

/-- `get_jobs`: lists jobs newest first; the `LIMIT` clause is attached
only when `limit` is truthy in Python (`if limit:`), so `None` and `0`
both skip it. -/
def get_jobs (db : DB) (limit : Option Nat) : List JobRow :=
  let rows := orderByCreatedDesc db.jobs
  match limit with
  | some l => if l ≠ 0 then rows.take l else rows
  | none => rows

/-! ### User accessors -/

/-- Columns named by `create_user`'s INSERT statement. -/
def userInsertCols : List String :=
  ["email", "password_hash", "role", "username", "first_name", "last_name",
   "verified", "created_at"]

/-- Columns named by `get_user_by_id`'s SELECT statement. -/
def userSelectCols : List String :=
  ["id", "email", "role", "is_banned", "banned_until", "created_at", "username",
   "first_name", "last_name", "verified"]

/-- AUTOINCREMENT id for a fresh `users` row (one more than the largest
id in use; the model does not track ids of deleted rows, which the
claims never depend on). -/
def nextUserId (db : DB) : Nat :=
  db.users.foldl (fun m u => max m u.id) 0 + 1

/-- `get_user_by_id`: point lookup.  The engine rejects the SELECT with
an operational error when the live `users` schema lacks a named column
(or the table itself). -/
def get_user_by_id (db : DB) (uid : Nat) : Except SqlError (Option UserRow) :=
  match db.usersCols with
  | none => .error .operationalError
  | some cols =>
    if userSelectCols.all (fun c => cols.contains c) then
      .ok (db.users.find? (fun u => u.id == uid))
    else .error .operationalError

/-- `create_user`: INSERTs a fresh row then returns
`get_user_by_id` on its id.  The engine rejects the INSERT with an
operational error when the live `users` schema lacks a named column,
and with an integrity error when `email` violates UNIQUE.  (In the
source a failure of the trailing SELECT propagates after the INSERT was
committed; the error value alone models that path, which no claim
exercises.) -/
def create_user (db : DB) (email password_hash : String) (role : String)
    (username first_name last_name : Option String) (verified : Int)
    (now : Int) : Except SqlError (Option UserRow × DB) :=
  match db.usersCols with
  | none => .error .operationalError
  | some cols =>
    if userInsertCols.all (fun c => cols.contains c) then
      if db.users.any (fun u => u.email == email) then .error .integrityError
      else
        let uid := nextUserId db
        let row : UserRow :=
          ⟨uid, email, password_hash, role, 0, none, now, username, first_name,
           last_name, verified⟩
        let db' := { db with users := db.users ++ [row] }
        match get_user_by_id db' uid with
        | .ok r => .ok (r, db')
        | .error e => .error e
    else .error .operationalError

/-- `set_user_verified`: UPDATE by email; returns whether any row was
affected (`cur.rowcount > 0`). -/
def set_user_verified (db : DB) (email : String) : Bool × DB :=
  let affected := db.users.countP (fun u => u.email == email)
  (decide (0 < affected),
   { db with users := db.users.map (fun u =>
       if u.email == email then { u with verified := 1 } else u) })

/-- `update_user_password`: UPDATE by email; returns whether any row was
affected (`cur.rowcount > 0`). -/
def update_user_password (db : DB) (email password_hash : String) : Bool × DB :=
  let affected := db.users.countP (fun u => u.email == email)
  (decide (0 < affected),
   { db with users := db.users.map (fun u =>
       if u.email == email then { u with password_hash := password_hash } else u) })

/-- Python truthiness of the optional `banned_until_iso` argument:
`None` and the empty string are falsy. -/
def isoTruthy : Option String → Bool
  | some s => s ≠ ""
  | none => false

/-- `set_user_ban`: sets the ban flag (and the optional expiry when the
argument is truthy, NULL otherwise) and returns `True` unconditionally. -/
def set_user_ban (db : DB) (uid : Nat) (banned_until_iso : Option String) :
    Bool × DB :=
  (true,
   { db with users := db.users.map (fun u =>
       if u.id == uid then
         { u with is_banned := 1,
                  banned_until := if isoTruthy banned_until_iso then banned_until_iso
                                  else none }
       else u) })

/-- `unset_user_ban`: clears the ban flag and expiry and returns `True`
unconditionally. -/
def unset_user_ban (db : DB) (uid : Nat) : Bool × DB :=
  (true,
   { db with users := db.users.map (fun u =>
       if u.id == uid then { u with is_banned := 0, banned_until := none } else u) })

/-- One iteration of `delete_user`'s loop over the user's job ids:
drops that job's applications and its job-targeted ratings. -/
def dropJobDependents (ar : List AppRow × List RatingRow) (jid : Nat) :
    List AppRow × List RatingRow :=
  (ar.1.filter (fun a => !(a.job_id == jid)),
   ar.2.filter (fun r => !(r.target_type == "job" && r.target_id == jid)))

/-- `delete_user`: deletes the user's applications, ratings authored by
or targeting the user, then for each job owned by the user that job's
applications and job-targeted ratings, then the user's jobs, then the
user row; returns `True` unconditionally. -/
def delete_user (db : DB) (uid : Nat) : Bool × DB :=
  let apps1 := db.apps.filter (fun a => !(a.user_id == uid))
  let ratings1 := db.ratings.filter (fun r =>
    !(r.rater_id == uid || (r.target_type == "user" && r.target_id == uid)))
  let jobIds := (db.jobs.filter (fun j => j.employer_id == uid)).map (fun j => j.id)
  let ar := jobIds.foldl dropJobDependents (apps1, ratings1)
  (true,
   { db with apps := ar.1, ratings := ar.2,
             jobs := db.jobs.filter (fun j => !(j.employer_id == uid)),
             users := db.users.filter (fun u => !(u.id == uid)) })

/-! ### Token accessors -/

/-- `create_token`: the random 48-hex-char token produced by
`secrets.token_hex(24)` is passed in as an oracle argument `tok`.
Ensures the `tokens` table inline, computes the absolute expiry
`now + ttl`, INSERTs; the UNIQUE constraint on `token` rejects a value
already present. -/
def create_token (db : DB) (tok email purpose : String) (now ttl : Int) :
    Except SqlError (String × DB) :=
  let db := { db with tokensCols := ensureTable db.tokensCols tokensCreateCols }
  if db.tokens.any (fun r => r.token == tok) then .error .integrityError
  else
    .ok (tok,
      { db with tokens :=
          db.tokens ++ [⟨tok, email, purpose, .atTime (now + ttl), now⟩] })

/-- `consume_token`: looks up by `(token, purpose)`; absent row yields
the not-found sentinel.  A NULL expiry skips the check (Python
`if expires_at:`), an unparsable expiry or one in the past deletes the
row and yields not-found; otherwise the row is deleted (single use) and
the email returned.  Every DELETE is `WHERE token = ?`. -/
def consume_token (db : DB) (tok purpose : String) (now : Int) :
    Option String × DB :=
  match db.tokens.find? (fun r => r.token == tok && r.purpose == purpose) with
  | none => (none, db)
  | some row =>
    let deleted := { db with tokens := db.tokens.filter (fun r => !(r.token == tok)) }
    match row.expires_at with
    | .nullExpiry => (some row.email, deleted)
    | .unparsable => (none, deleted)
    | .atTime e => if e < now then (none, deleted) else (some row.email, deleted)

/-- `get_token_info`: the non-consuming peek — same lookup and expiry
check as `consume_token` but issues no DELETE, so the state component is
returned unchanged on every path. -/
def get_token_info (db : DB) (tok purpose : String) (now : Int) :
    Option TokenRow × DB :=
  match db.tokens.find? (fun r => r.token == tok && r.purpose == purpose) with
  | none => (none, db)
  | some row =>
    match row.expires_at with
    | .nullExpiry => (some row, db)
    | .unparsable => (none, db)
    | .atTime e => if e < now then (none, db) else (some row, db)

/-! ### Job accessors -/

/-- `get_job_by_id`: point lookup. -/
def get_job_by_id (db : DB) (jid : Nat) : Option JobRow :=
  db.jobs.find? (fun j => j.id == jid)

/-- Rewrite of one `jobs` row by `update_job`'s UPDATE statement: a
supplied (`some`) argument overwrites the column, `none` (the field was
left out of the SET list) keeps the stored value. -/
def applyJobUpdate (j : JobRow) (title description location_text : Option String)
    (lat lng : Option Int) (salary tags : Option String) : JobRow :=
  { j with title := title.getD j.title,
           description := description.getD j.description,
           location_text := match location_text with
                            | some v => some v | none => j.location_text,
           lat := match lat with | some v => some v | none => j.lat,
           lng := match lng with | some v => some v | none => j.lng,
           salary := match salary with | some v => some v | none => j.salary,
           tags := match tags with | some v => some v | none => j.tags }

/-- `update_job`: builds the SET list from the non-`None` arguments;
with an empty list it closes the connection and returns the current row
without writing; otherwise it rewrites exactly those fields on the rows
matching `id` and returns the freshly fetched row. -/
def update_job (db : DB) (jid : Nat) (title description location_text : Option String)
    (lat lng : Option Int) (salary tags : Option String) : Option JobRow × DB :=
  if title.isNone && description.isNone && location_text.isNone && lat.isNone &&
     lng.isNone && salary.isNone && tags.isNone then
    (get_job_by_id db jid, db)
  else
    let db' := { db with jobs := db.jobs.map (fun j =>
      if j.id == jid then
        applyJobUpdate j title description location_text lat lng salary tags
      else j) }
    (get_job_by_id db' jid, db')

/-- `delete_job`: deletes the job's applications, the ratings targeting
it, then the job row; returns `True` unconditionally. -/
def delete_job (db : DB) (jid : Nat) : Bool × DB :=
  (true,
   { db with apps := db.apps.filter (fun a => !(a.job_id == jid)),
             ratings := db.ratings.filter (fun r =>
               !(r.target_type == "job" && r.target_id == jid)),
             jobs := db.jobs.filter (fun j => !(j.id == jid)) })

/-! ### Rating accessors -/

/-- AUTOINCREMENT id for a fresh `ratings` row. -/
def nextRatingId (db : DB) : Nat :=
  db.ratings.foldl (fun m r => max m r.id) 0 + 1

/-- `create_rating`: INSERT guarded by the storage-layer
`CHECK (rating >= 1 AND rating <= 5)` from `init_db`'s schema; a value
outside the range is rejected with a constraint error and nothing is
inserted. -/
def create_rating (db : DB) (target_type : String) (target_id rater_id : Nat)
    (rating : Int) (comment : String) (now : Int) :
    Except SqlError (RatingRow × DB) :=
  if 1 ≤ rating ∧ rating ≤ 5 then
    let row : RatingRow :=
      ⟨nextRatingId db, target_type, target_id, rater_id, rating, comment, now⟩
    .ok (row, { db with ratings := db.ratings ++ [row] })
  else .error .checkViolation

/-! ### Helper lemmas -/

lemma mem_addColumnIfMissing_self (cols : List String) (c : String) :
    c ∈ addColumnIfMissing cols c := by
  by_cases h : c ∈ cols <;> simp [addColumnIfMissing, h]

lemma mem_addColumnIfMissing_of (cols : List String) (c d : String)
    (h : d ∈ cols) : d ∈ addColumnIfMissing cols c := by
  by_cases hc : c ∈ cols <;> simp [addColumnIfMissing, hc, h]

lemma addColumnIfMissing_of_mem {cols : List String} {c : String}
    (h : c ∈ cols) : addColumnIfMissing cols c = cols := by
  simp [addColumnIfMissing, h]

/-- The additive patch of the `applications` columns is idempotent. -/
lemma patchAppsCols_idem (cols : List String) :
    addColumnIfMissing (addColumnIfMissing
      (addColumnIfMissing (addColumnIfMissing cols "cover_letter_path")
        "resume_path") "cover_letter_path") "resume_path" =
    addColumnIfMissing (addColumnIfMissing cols "cover_letter_path") "resume_path" := by
  have h1 := mem_addColumnIfMissing_self cols "cover_letter_path"
  have h2 := mem_addColumnIfMissing_of _ "resume_path" _ h1
  rw [addColumnIfMissing_of_mem h2,
      addColumnIfMissing_of_mem (mem_addColumnIfMissing_self _ _)]

/-! ### Claims -/

/-- C8: `init_db` is idempotent — a second call on an initialized state
produces an identical schema — and `init_db` never touches row data. -/
theorem c8_init_db_idempotent (db : DB) :
    init_db (init_db db) = init_db db ∧
    (init_db db).users = db.users ∧ (init_db db).jobs = db.jobs ∧
    (init_db db).apps = db.apps ∧ (init_db db).ratings = db.ratings ∧
    (init_db db).tokens = db.tokens := by
  refine ⟨?_, rfl, rfl, rfl, rfl, rfl⟩
  cases db with
  | mk uc jc ac rc tc us js aps rs ts =>
    cases uc <;> cases jc <;> cases ac <;> cases rc <;> cases tc <;>
      simp [init_db, ensureTable, patchAppsCols_idem]

/-- C9: `get_jobs` applies its LIMIT only when the argument is truthy,
so `limit=0` and `limit=None` return the same (full) list on every
database state. -/
theorem c9_get_jobs_limit_zero_is_no_limit (db : DB) :
    get_jobs db (some 0) = get_jobs db none := rfl

/-- C10: `set_user_ban`, `unset_user_ban`, `delete_user` and
`delete_job` return `True` unconditionally (for every state and id),
while `set_user_verified` and `update_user_password` return whether any
row matched the given email. -/
theorem c10_boolean_returns (db : DB) (uid jid : Nat) (v : Option String)
    (e ph : String) :
    (set_user_ban db uid v).1 = true ∧ (unset_user_ban db uid).1 = true ∧
    (delete_user db uid).1 = true ∧ (delete_job db jid).1 = true ∧
    (set_user_verified db e).1 = db.users.any (fun u => u.email == e) ∧
    (update_user_password db e ph).1 = db.users.any (fun u => u.email == e) := by
  refine ⟨rfl, rfl, rfl, rfl, ?_, ?_⟩ <;>
    · first
      | (simp only [set_user_verified]) | (simp only [update_user_password])
      rw [Bool.eq_iff_iff]
      simp [List.countP_pos_iff, List.any_eq_true]

/-- C1 (code bug): on a database initialized by `init_db`, `create_user`
does not round-trip — its INSERT names the columns `username`,
`first_name`, `last_name` and `verified`, which `init_db`'s `users`
schema never creates, so the engine rejects the statement. -/
theorem c1_create_user_after_init_db_fails :
    create_user (init_db emptyDB) "a@b.com" "h" "candidate" none none none 0 0 =
      .error .operationalError := rfl

/-- C7: the storage-layer CHECK constraint admits exactly the ratings in
[1,5]: an in-range value is inserted (and returned), an out-of-range
value fails with a constraint error and inserts nothing. -/
theorem c7_rating_range_enforced (db : DB) (tt : String) (ti ri : Nat)
    (r : Int) (c : String) (now : Int) :
    (1 ≤ r ∧ r ≤ 5 →
      ∃ row, create_rating db tt ti ri r c now =
          .ok (row, { db with ratings := db.ratings ++ [row] }) ∧
        row.rating = r) ∧
    (¬(1 ≤ r ∧ r ≤ 5) →
      create_rating db tt ti ri r c now = .error .checkViolation) := by
  constructor <;> intro h <;> simp [create_rating, h]

/-- Witness for C7 at `rating=5` (succeeds) and `rating=6` (constraint
error). -/
theorem c7_rating_range_enforced_witness :
    (∃ row, create_rating emptyDB "user" 1 2 5 "" 0 =
        .ok (row, { emptyDB with ratings := emptyDB.ratings ++ [row] }) ∧
      row.rating = 5) ∧
    create_rating emptyDB "user" 1 2 6 "" 0 = .error .checkViolation :=
  ⟨(c7_rating_range_enforced emptyDB "user" 1 2 5 "" 0).1 (by decide),
   (c7_rating_range_enforced emptyDB "user" 1 2 6 "" 0).2 (by decide)⟩

/-- C4: a token whose stored expiry lies in the past is not-found for
both `consume_token` (which additionally purges the row) and
`get_token_info` (which leaves the state unchanged). -/
theorem c4_expired_token_not_found (db : DB) (tok purpose : String)
    (now e : Int) (row : TokenRow)
    (hfind : db.tokens.find? (fun r => r.token == tok && r.purpose == purpose) =
      some row)
    (hexp : row.expires_at = .atTime e) (hpast : e < now) :
    consume_token db tok purpose now =
      (none, { db with tokens := db.tokens.filter (fun r => !(r.token == tok)) }) ∧
    get_token_info db tok purpose now = (none, db) := by
  constructor
  · simp [consume_token, hfind, hexp, hpast]
  · simp [get_token_info, hfind, hexp, hpast]

/-- Database holding exactly the token produced by
`create_token(email="a@b.com", purpose="reset", ttl_seconds=-1)` at
instant 5: its stored expiry 4 already lies in the past. -/
def dbExpiredTok : DB :=
  { emptyDB with tokensCols := some tokensCreateCols,
                 tokens := [⟨"t", "a@b.com", "reset", .atTime 4, 5⟩] }

/-- Witness for C4: the `ttl_seconds=-1` token of the claim. -/
theorem c4_expired_token_not_found_witness :
    create_token emptyDB "t" "a@b.com" "reset" 5 (-1) = .ok ("t", dbExpiredTok) ∧
    consume_token dbExpiredTok "t" "reset" 5 = (none, { dbExpiredTok with tokens := [] }) ∧
    get_token_info dbExpiredTok "t" "reset" 5 = (none, dbExpiredTok) :=
  ⟨rfl,
   (c4_expired_token_not_found dbExpiredTok "t" "reset" 5 4
      ⟨"t", "a@b.com", "reset", .atTime 4, 5⟩ rfl rfl (by decide)).1,
   (c4_expired_token_not_found dbExpiredTok "t" "reset" 5 4
      ⟨"t", "a@b.com", "reset", .atTime 4, 5⟩ rfl rfl (by decide)).2⟩

/-- C5: a stored token row whose expiry cannot be parsed is treated like
an expired one — `consume_token` deletes the row and returns the
not-found sentinel instead of surfacing a distinct error. -/
theorem c5_malformed_expiry_purged (db : DB) (tok purpose : String)
    (now : Int) (row : TokenRow)
    (hfind : db.tokens.find? (fun r => r.token == tok && r.purpose == purpose) =
      some row)
    (hbad : row.expires_at = .unparsable) :
    consume_token db tok purpose now =
      (none, { db with tokens := db.tokens.filter (fun r => !(r.token == tok)) }) := by
  simp [consume_token, hfind, hbad]

/-- Database holding one token row whose stored expiry is unparsable. -/
def dbMalformedTok : DB :=
  { emptyDB with tokensCols := some tokensCreateCols,
                 tokens := [⟨"m", "a@b.com", "reset", .unparsable, 0⟩] }

/-- Witness for C5 on a concrete malformed row. -/
theorem c5_malformed_expiry_purged_witness :
    consume_token dbMalformedTok "m" "reset" 1 =
      (none, { dbMalformedTok with tokens := [] }) :=
  c5_malformed_expiry_purged dbMalformedTok "m" "reset" 1
    ⟨"m", "a@b.com", "reset", .unparsable, 0⟩ rfl rfl

/-- C2: a token created with a positive ttl is consumed exactly once —
the first `consume_token` before expiry returns the email, and any
later `consume_token` with the same token returns the not-found
sentinel. -/
theorem c2_token_single_use (db : DB) (tok email purpose : String)
    (now ttl t1 t2 : Int) (db' : DB)
    (hfresh : ∀ r ∈ db.tokens, (r.token == tok) = false)
    (hpos : 0 < ttl) (hbefore : t1 ≤ now + ttl)
    (hcreate : create_token db tok email purpose now ttl = .ok (tok, db')) :
    (consume_token db' tok purpose t1).1 = some email ∧
    (consume_token (consume_token db' tok purpose t1).2 tok purpose t2).1 = none := by
  have hany : (db.tokens.any (fun r => r.token == tok)) = false := by
    rw [List.any_eq_false]
    intro r hr
    simp [hfresh r hr]
  rw [create_token] at hcreate
  simp only [hany, Bool.false_eq_true, if_false] at hcreate
  rw [Except.ok.injEq, Prod.mk.injEq] at hcreate
  obtain ⟨-, hdb⟩ := hcreate
  subst hdb
  have hfindNone :
      db.tokens.find? (fun r => r.token == tok && r.purpose == purpose) = none := by
    rw [List.find?_eq_none]
    intro r hr
    simp [hfresh r hr]
  have hfind :
      (db.tokens ++ [(⟨tok, email, purpose, .atTime (now + ttl), now⟩ : TokenRow)]).find?
        (fun r => r.token == tok && r.purpose == purpose) =
        some ⟨tok, email, purpose, .atTime (now + ttl), now⟩ := by
    rw [List.find?_append, hfindNone]
    simp [List.find?]
  have hfilter :
      (db.tokens ++ [(⟨tok, email, purpose, .atTime (now + ttl), now⟩ : TokenRow)]).filter
        (fun r => !(r.token == tok)) = db.tokens := by
    rw [List.filter_append]
    have : db.tokens.filter (fun r => !(r.token == tok)) = db.tokens := by
      rw [List.filter_eq_self]
      intro r hr
      simp [hfresh r hr]
    simp [this]
  constructor
  · simp [consume_token, hfind, not_lt.mpr hbefore]
  · simp [consume_token, hfind, not_lt.mpr hbefore, hfilter, hfindNone]

/-- Database holding exactly the token produced by
`create_token(email="a@b.com", purpose="reset")` with the default
one-hour ttl at instant 0. -/
def dbFreshTok : DB :=
  { emptyDB with tokensCols := some tokensCreateCols,
                 tokens := [⟨"t", "a@b.com", "reset", .atTime 3600, 0⟩] }

/-- Witness for C2: create at instant 0, consume at 100, retry at 200. -/
theorem c2_token_single_use_witness :
    (consume_token dbFreshTok "t" "reset" 100).1 = some "a@b.com" ∧
    (consume_token (consume_token dbFreshTok "t" "reset" 100).2 "t" "reset" 200).1 =
      none :=
  c2_token_single_use emptyDB "t" "a@b.com" "reset" 0 3600 100 200 dbFreshTok
    (by decide) (by decide) (by decide) rfl

/-- Fetching by id after rewriting the rows that match that id fetches
the rewritten row, provided the rewrite preserves ids. -/
lemma find?_update_by_id (l : List JobRow) (jid : Nat) (f : JobRow → JobRow)
    (hf : ∀ x, (f x).id = x.id) :
    (l.map (fun x => if x.id == jid then f x else x)).find? (fun x => x.id == jid) =
      (l.find? (fun x => x.id == jid)).map (fun x => if x.id == jid then f x else x) := by
  induction l with
  | nil => rfl
  | cons x xs ih =>
    by_cases h : (x.id == jid) = true
    · have hfx : ((f x).id == jid) = true := by rw [hf]; exact h
      have hq : x.id = jid := by simpa using h
      rw [List.map_cons, if_pos h]
      simp [List.find?, hfx, h, hq]
    · rw [List.map_cons, if_neg h]
      simp only [List.find?, h, ih]


/-- C6: `update_job` rewrites exactly the supplied fields of the
matching job (a `None` argument leaves that column unchanged), touches
no other table, and with no supplied fields performs no write and still
returns the current row. -/
theorem c6_update_job_sparse (db : DB) (jid : Nat)
    (t d loc : Option String) (la ln : Option Int) (sal tg : Option String)
    (j : JobRow) (hfound : get_job_by_id db jid = some j) :
    update_job db jid none none none none none none none = (some j, db) ∧
    (∃ r db2, update_job db jid t d loc la ln sal tg = (some r, db2) ∧
      r.id = j.id ∧ r.employer_id = j.employer_id ∧ r.created_at = j.created_at ∧
      r.title = t.getD j.title ∧
      r.description = d.getD j.description ∧
      r.location_text = (match loc with | some v => some v | none => j.location_text) ∧
      r.lat = (match la with | some v => some v | none => j.lat) ∧
      r.lng = (match ln with | some v => some v | none => j.lng) ∧
      r.salary = (match sal with | some v => some v | none => j.salary) ∧
      r.tags = (match tg with | some v => some v | none => j.tags) ∧
      db2.jobs = db.jobs.map (fun x =>
        if x.id == jid then applyJobUpdate x t d loc la ln sal tg else x) ∧
      db2.users = db.users ∧ db2.apps = db.apps ∧ db2.ratings = db.ratings ∧
      db2.tokens = db.tokens) := by
  have hid : ∀ x : JobRow, (applyJobUpdate x t d loc la ln sal tg).id = x.id :=
    fun x => rfl
  have hfound' : db.jobs.find? (fun x => x.id == jid) = some j := hfound
  have hpj := List.find?_some hfound'
  constructor
  · simp [update_job, hfound]
  · by_cases hall : (t.isNone && d.isNone && loc.isNone && la.isNone && ln.isNone &&
      sal.isNone && tg.isNone) = true
    · obtain ⟨ht, hd, hloc, hla, hln, hsal, htg⟩ :
          t = none ∧ d = none ∧ loc = none ∧ la = none ∧ ln = none ∧
          sal = none ∧ tg = none := by
        simp only [Bool.and_eq_true, Option.isNone_iff_eq_none] at hall
        tauto
      subst ht hd hloc hla hln hsal htg
      refine ⟨j, db, ?_, rfl, rfl, rfl, rfl, rfl, rfl, rfl, rfl, rfl, rfl, ?_,
        rfl, rfl, rfl, rfl⟩
      · simp [update_job, hfound]
      · have hone : ∀ x ∈ db.jobs,
            (if x.id == jid then applyJobUpdate x none none none none none none none
             else x) = x := by
          intro x _
          split <;> rfl
        rw [List.map_congr_left hone]
        simp
    · refine ⟨applyJobUpdate j t d loc la ln sal tg,
        { db with jobs := db.jobs.map (fun x =>
            if x.id == jid then applyJobUpdate x t d loc la ln sal tg else x) },
        ?_, rfl, rfl, rfl, rfl, rfl, rfl, rfl, rfl, rfl, rfl, rfl, rfl, rfl, rfl, rfl⟩
      rw [update_job, if_neg hall]
      simp only [get_job_by_id]
      rw [find?_update_by_id _ _ _ hid, hfound']
      have hq : j.id = jid := by simpa using hpj
      simp [hq]

/-- A job row for the C6 witness database. -/
def jobRowC6 : JobRow := ⟨1, 7, "Old", "Desc", none, none, none, some "", none, 0⟩

/-- Database holding exactly one job, with id 1. -/
def dbOneJob : DB := { emptyDB with jobsCols := some jobsCreateCols, jobs := [jobRowC6] }

/-- Witness for C6: `update_job(1, title="New")` rewrites only the
title; `update_job(1)` with no fields is a no-op returning the row. -/
theorem c6_update_job_sparse_witness :
    update_job dbOneJob 1 none none none none none none none =
      (some jobRowC6, dbOneJob) ∧
    (∃ r db2, update_job dbOneJob 1 (some "New") none none none none none none =
        (some r, db2) ∧
      r.id = 1 ∧ r.employer_id = 7 ∧ r.created_at = 0 ∧
      r.title = "New" ∧ r.description = "Desc" ∧
      r.location_text = none ∧ r.lat = none ∧ r.lng = none ∧
      r.salary = some "" ∧ r.tags = none ∧
      db2.jobs = [{ jobRowC6 with title := "New" }] ∧
      db2.users = [] ∧ db2.apps = [] ∧ db2.ratings = [] ∧ db2.tokens = []) :=
  c6_update_job_sparse dbOneJob 1 (some "New") none none none none none none jobRowC6 rfl

lemma any_map_general {α β : Type} (l : List α) (f : α → β) (p : β → Bool) :
    (l.map f).any p = l.any (fun x => p (f x)) := by
  induction l with
  | nil => rfl
  | cons x xs ih => simp [ih]

/-- `true` when the database holds a job with this id owned by this
employer. -/
def ownsJob (db : DB) (uid n : Nat) : Bool :=
  db.jobs.any (fun j => j.employer_id == uid && n == j.id)

lemma jobIds_any (db : DB) (uid n : Nat) :
    ((db.jobs.filter (fun j => j.employer_id == uid)).map (fun j => j.id)).any
      (fun jid => n == jid) = ownsJob db uid n := by
  rw [any_map_general, List.any_filter]
  rfl

lemma jobIds_any_rating (db : DB) (uid : Nat) (tt : String) (n : Nat) :
    ((db.jobs.filter (fun j => j.employer_id == uid)).map (fun j => j.id)).any
      (fun jid => tt == "job" && n == jid) = (tt == "job" && ownsJob db uid n) := by
  rw [any_map_general, List.any_filter]
  cases htt : tt == "job" <;> simp [htt, ownsJob]

/-- `delete_user`'s per-job cleanup loop filters by membership in the
job-id list. -/
lemma foldl_dropJobDependents (ids : List Nat) (as : List AppRow)
    (rs : List RatingRow) :
    ids.foldl dropJobDependents (as, rs) =
      (as.filter (fun a => !(ids.any (fun jid => a.job_id == jid))),
       rs.filter (fun r =>
         !(ids.any (fun jid => r.target_type == "job" && r.target_id == jid)))) := by
  induction ids generalizing as rs with
  | nil => simp
  | cons i is ih =>
    rw [List.foldl_cons]
    have hstep : dropJobDependents (as, rs) i =
        (as.filter (fun a => !(a.job_id == i)),
         rs.filter (fun r => !(r.target_type == "job" && r.target_id == i))) := rfl
    rw [hstep, ih]
    simp only [Prod.mk.injEq]
    constructor
    · rw [List.filter_filter]
      apply List.filter_congr
      intro a _
      simp [Bool.not_or, Bool.and_comm]
    · rw [List.filter_filter]
      apply List.filter_congr
      intro r _
      simp [Bool.not_or, Bool.and_comm]

/-- C3: `delete_user` leaves exactly the rows unrelated to the user —
users keep every id but `uid`, jobs keep every employer but `uid`,
applications keep exactly those neither filed by the user nor filed on
one of the user's jobs, ratings keep exactly those neither authored by
the user, nor targeting the user, nor targeting one of the user's jobs;
tokens are untouched. -/
theorem c3_delete_user_cascade (db : DB) (uid : Nat) :
    (delete_user db uid).2.users = db.users.filter (fun u => !(u.id == uid)) ∧
    (delete_user db uid).2.jobs = db.jobs.filter (fun j => !(j.employer_id == uid)) ∧
    (delete_user db uid).2.tokens = db.tokens ∧
    (delete_user db uid).2.apps =
      db.apps.filter (fun a => !(a.user_id == uid) && !(ownsJob db uid a.job_id)) ∧
    (delete_user db uid).2.ratings =
      db.ratings.filter (fun r =>
        !(r.rater_id == uid || (r.target_type == "user" && r.target_id == uid)) &&
        !(r.target_type == "job" && ownsJob db uid r.target_id)) := by
  refine ⟨rfl, rfl, rfl, ?_, ?_⟩
  · simp only [delete_user, foldl_dropJobDependents]
    rw [List.filter_filter]
    apply List.filter_congr
    intro a _
    rw [jobIds_any]
    simp [Bool.and_comm]
  · simp only [delete_user, foldl_dropJobDependents]
    rw [List.filter_filter]
    apply List.filter_congr
    intro r _
    rw [jobIds_any_rating]
    simp [Bool.and_comm]
